import Mathlib

/-!
Shallow embedding of `lltypes/core.py`: the type-node hierarchy, the
endianness/format constructor helpers, the layout compiler (`to_ctypes`,
spec name `to_native_layout`), the bulk-element translation (`to_dtype`,
spec name `to_element_descriptor`) and the array-descriptor builders.
Python exceptions are modelled as an explicit error type carried by
`Except`; machine behaviour of Python (a dictionary subscript raising
`KeyError`, an attribute lookup raising `AttributeError`, a call with too
few positional arguments raising `TypeError`) is made explicit in the
embedding.
-/

namespace LLTypes

/-- The failure kinds observable from `core.py`: the three exception classes
it declares (`NoLlvmMapping`, `NoCtypeMapping`, `NoDtypeMapping`) plus the
Python built-in exceptions its code can raise (`KeyError` from a dictionary
subscript, `AttributeError` from a missing attribute, `TypeError` from a
call with missing positional arguments). -/
inductive PyError where
  | noLlvmMapping
  | noCtypeMapping
  | noDtypeMapping
  | keyError (key : String)
  | attributeError (attr : String)
  | typeError (msg : String)
deriving DecidableEq, Repr

/-- The type-node hierarchy of `core.py`: `Struct`, `Field`, `Enum`,
`Union`, `Vector`, `Pointer`, `Sequence`, `VariableString`,
`TerminatedString`. Attributes are exactly those the Python constructors
store: `Vector.__init__` discards its `width` argument and stores only
`options` (and never sets `name`); `Pointer` stores only the pointee. -/
inductive Ty where
  | struct (name : String) (fields : List Ty)
  | field (name endianness format : String)
  | enum (name : String) (idx : Ty)
  | union (name : String) (tag : Ty) (options : List Ty)
  | vector (options : List Ty)
  | pointer (ty : Ty)
  | sequence (name : String) (ty : Ty) (length : Nat)
  | variableString (name : String) (ptr : Ty) (length : Ty)
  | terminatedString (name : String) (terminator : String)
deriving Repr

/-- Reading `.name` on a node. Every constructor stores a `name` attribute
except `Vector` (whose `__init__` never assigns one, so the attribute
lookup raises `AttributeError`) and `Pointer`, whose `name` property
returns `self.ty.name`. -/
def Ty.name : Ty → Except PyError String
  | .struct n _ => .ok n
  | .field n _ _ => .ok n
  | .enum n _ => .ok n
  | .union n _ _ => .ok n
  | .vector _ => .error (.attributeError "name")
  | .pointer t => Ty.name t
  | .sequence n _ _ => .ok n
  | .variableString n _ _ => .ok n
  | .terminatedString n _ => .ok n

/-- Numeric kind of a scalar entry in the Format Table. -/
inductive NumKind where
  | unsigned
  | signed
  | float
  | boolean
deriving DecidableEq, Repr

/-- A scalar representation resolved from the Format Table: a byte width
and a numeric kind. -/
structure CScalar where
  byte_width : Nat
  kind : NumKind
deriving DecidableEq, Repr

/-- Modelled from the spec: the `codes` module holding the Format Table
(`codes.format_ctypes`) is not part of the sources; the spec describes it
as a static lookup table from a one-letter scalar format code to a native
scalar representation `(byte_width, numeric_kind)`, defined exactly on the
codes the constructor helpers emit (unsigned and signed integers of
1, 2, 4, 8 bytes; IEEE float32/float64; boolean) and "not found"
elsewhere. -/
def format_ctypes : String → Option CScalar
  | "B" => some ⟨1, .unsigned⟩
  | "H" => some ⟨2, .unsigned⟩
  | "L" => some ⟨4, .unsigned⟩
  | "Q" => some ⟨8, .unsigned⟩
  | "b" => some ⟨1, .signed⟩
  | "h" => some ⟨2, .signed⟩
  | "l" => some ⟨4, .signed⟩
  | "q" => some ⟨8, .signed⟩
  | "f" => some ⟨4, .float⟩
  | "d" => some ⟨8, .float⟩
  | "?" => some ⟨1, .boolean⟩
  | _ => none

/-- Native layouts produced by `to_ctypes`: a scalar from the Format Table,
a `ctypes.Structure` with named members in order, a `ctypes.POINTER`, or a
fixed array `elem * length`. -/
inductive CType where
  | scalar (s : CScalar)
  | Structure (name : String) (members : List (String × CType))
  | pointer (pointee : CType)
  | array (elem : CType) (length : Nat)
deriving Repr

mutual

/-- `to_ctypes` of `core.py`.
`Struct.to_ctypes` builds `_fields_ = [(field.name, field.to_ctypes()) for
field in self.fields]` and names the class `self.name`.
`Field.to_ctypes` evaluates `codes.format_ctypes[self.format]`: a Python
dictionary subscript, so a missing key raises `KeyError`, not
`NoCtypeMapping`.
`Pointer.to_ctypes` returns `ctypes.POINTER(self.ty.to_ctypes())` and
`Sequence.to_ctypes` returns `self.ty.to_ctypes() * self.length`.
All other variants inherit `Type.to_ctypes`, which raises
`NoCtypeMapping(self)`. -/
def Ty.to_ctypes : Ty → Except PyError CType
  | .struct n fs =>
      match toCtypesFields fs with
      | .ok ms => .ok (.Structure n ms)
      | .error e => .error e
  | .field _ _ fmt =>
      match format_ctypes fmt with
      | some s => .ok (.scalar s)
      | none => .error (.keyError fmt)
  | .pointer t =>
      match Ty.to_ctypes t with
      | .ok c => .ok (.pointer c)
      | .error e => .error e
  | .sequence _ t len =>
      match Ty.to_ctypes t with
      | .ok c => .ok (.array c len)
      | .error e => .error e
  | .enum _ _ => .error .noCtypeMapping
  | .union _ _ _ => .error .noCtypeMapping
  | .vector _ => .error .noCtypeMapping
  | .variableString _ _ _ => .error .noCtypeMapping
  | .terminatedString _ _ => .error .noCtypeMapping

/-- The `_fields_` list comprehension of `Struct.to_ctypes`, evaluated
left to right: for each field, first `field.name`, then
`field.to_ctypes()`; the first exception propagates. -/
def toCtypesFields : List Ty → Except PyError (List (String × CType))
  | [] => .ok []
  | f :: rest =>
      match Ty.name f with
      | .error e => .error e
      | .ok nm =>
        match Ty.to_ctypes f with
        | .error e => .error e
        | .ok c =>
          match toCtypesFields rest with
          | .error e => .error e
          | .ok tail => .ok ((nm, c) :: tail)

end

/-- `Field.to_dtype` of `core.py` evaluates
`numpy.dtype(self.endianess + self.format)`: the attribute read in the
source is spelled `endianess`, while `Field.__init__` stores `endianness`,
so the attribute lookup raises `AttributeError` before `numpy.dtype` is
reached, on every `Field`. All other variants inherit `Type.to_dtype`,
which raises `NoDtypeMapping(self)`. The success type is the dtype string
the concatenation would have produced. -/
def Ty.to_dtype : Ty → Except PyError String
  | .field _ _ _ => .error (.attributeError "endianess")
  | _ => .error .noDtypeMapping

/-! The endianness/format constructor helpers of `core.py`, kept with their
source names: unsigned/signed integers of widths 8/16/32/64 in big (`>`),
little (`<`) and native (`=`) endianness, IEEE floats, boolean, and the
aliases `Byte`, `SChar`, `UChar`, `Char`. -/

def UBInt8 (name : String) : Ty := .field name ">" "B"

def UBInt16 (name : String) : Ty := .field name ">" "H"

def UBInt32 (name : String) : Ty := .field name ">" "L"

def UBInt64 (name : String) : Ty := .field name ">" "Q"

def SBInt8 (name : String) : Ty := .field name ">" "b"

def SBInt16 (name : String) : Ty := .field name ">" "h"

def SBInt32 (name : String) : Ty := .field name ">" "l"

def SBInt64 (name : String) : Ty := .field name ">" "q"

def ULInt8 (name : String) : Ty := .field name "<" "B"

def ULInt16 (name : String) : Ty := .field name "<" "H"

def ULInt32 (name : String) : Ty := .field name "<" "L"

def ULInt64 (name : String) : Ty := .field name "<" "Q"

def SLInt8 (name : String) : Ty := .field name "<" "b"

def SLInt16 (name : String) : Ty := .field name "<" "h"

def SLInt32 (name : String) : Ty := .field name "<" "l"

def SLInt64 (name : String) : Ty := .field name "<" "q"

def UNInt8 (name : String) : Ty := .field name "=" "B"

def UNInt16 (name : String) : Ty := .field name "=" "H"

def UNInt32 (name : String) : Ty := .field name "=" "L"

def UNInt64 (name : String) : Ty := .field name "=" "Q"

def SNInt8 (name : String) : Ty := .field name "=" "b"

def SNInt16 (name : String) : Ty := .field name "=" "h"

def SNInt32 (name : String) : Ty := .field name "=" "l"

def SNInt64 (name : String) : Ty := .field name "=" "q"

def BFloat32 (name : String) : Ty := .field name ">" "f"

def LFloat32 (name : String) : Ty := .field name "<" "f"

def NFloat32 (name : String) : Ty := .field name "=" "f"

def BFloat64 (name : String) : Ty := .field name ">" "d"

def LFloat64 (name : String) : Ty := .field name "<" "d"

def NFloat64 (name : String) : Ty := .field name "=" "d"

def Bool (name : String) : Ty := .field name "=" "?"

def Byte : String → Ty := UBInt8

def SChar : String → Ty := SLInt8

def UChar : String → Ty := ULInt8

def Char : String → Ty := SChar

/-- `Enum.__init__(self, name, **kw)`: stores `name` and
`idx = Byte(name)`; the keyword arguments are discarded. -/
def Enum (name : String) : Ty := .enum name (Byte name)

/-- `FixedString(length)` evaluates `Sequence(Char, length)`.
`Sequence.__init__(self, name, ty, length)` requires three positional
arguments after `self`; the call supplies only two (`Char` bound to
`name`, the integer bound to `ty`), so Python raises
`TypeError: __init__() missing 1 required positional argument` before any
`Sequence` object is created. -/
def FixedString (length : Nat) : Except PyError Ty :=
  .error (.typeError "Sequence.__init__ missing 1 required positional argument: length")

/-- `CString()` evaluates `TerminatedString(0x00-literal)`.
`TerminatedString.__init__(self, name, terminator)` requires two
positional arguments after `self`; the call supplies only one (the string
literal bound to `name`), so Python raises
`TypeError: __init__() missing 1 required positional argument` before any
`TerminatedString` object is created. -/
def CString : Except PyError Ty :=
  .error (.typeError "TerminatedString.__init__ missing 1 required positional argument: terminator")

/-! The array-descriptor builders. Each takes `(name, ty, nd)` but builds
a `Struct` whose name is the fixed literal of the builder; the `name`
argument is never used. -/

def Array_C (name : String) (ty : String → Ty) (nd : Nat) : Ty :=
  .struct "Array_C"
    [ .pointer (ty "data"),
      .sequence "shape" (UNInt8 "") nd ]

def Array_F (name : String) (ty : String → Ty) (nd : Nat) : Ty :=
  .struct "Array_F"
    [ .pointer (ty "data"),
      .sequence "shape" (UNInt8 "") nd ]

def Array_S (name : String) (ty : String → Ty) (nd : Nat) : Ty :=
  .struct "Array_S"
    [ .pointer (ty "data"),
      .sequence "shape" (UNInt8 "") nd,
      .sequence "stride" (UNInt8 "") nd ]

/-! Enumeration scaffolding for the integer constructor family: the 24
signedness/width/endianness triples and the named constructor each triple
designates in the source. -/

inductive Signedness where
  | unsigned
  | signed
deriving DecidableEq, Fintype, Repr

inductive Width where
  | w8
  | w16
  | w32
  | w64
deriving DecidableEq, Fintype, Repr

inductive Endian where
  | big
  | little
  | native
deriving DecidableEq, Fintype, Repr

/-- The one named integer `Field` constructor of `core.py` for each
(signedness, width, endianness) triple. -/
def intFieldCtor : Signedness → Width → Endian → (String → Ty)
  | .unsigned, .w8, .big => UBInt8
  | .unsigned, .w16, .big => UBInt16
  | .unsigned, .w32, .big => UBInt32
  | .unsigned, .w64, .big => UBInt64
  | .signed, .w8, .big => SBInt8
  | .signed, .w16, .big => SBInt16
  | .signed, .w32, .big => SBInt32
  | .signed, .w64, .big => SBInt64
  | .unsigned, .w8, .little => ULInt8
  | .unsigned, .w16, .little => ULInt16
  | .unsigned, .w32, .little => ULInt32
  | .unsigned, .w64, .little => ULInt64
  | .signed, .w8, .little => SLInt8
  | .signed, .w16, .little => SLInt16
  | .signed, .w32, .little => SLInt32
  | .signed, .w64, .little => SLInt64
  | .unsigned, .w8, .native => UNInt8
  | .unsigned, .w16, .native => UNInt16
  | .unsigned, .w32, .native => UNInt32
  | .unsigned, .w64, .native => UNInt64
  | .signed, .w8, .native => SNInt8
  | .signed, .w16, .native => SNInt16
  | .signed, .w32, .native => SNInt32
  | .signed, .w64, .native => SNInt64

/-- The (endianness, format) pair of the `Field` each integer constructor
produces. -/
def ctorPair : Signedness → Width → Endian → String × String
  | .unsigned, .w8, .big => (">", "B")
  | .unsigned, .w16, .big => (">", "H")
  | .unsigned, .w32, .big => (">", "L")
  | .unsigned, .w64, .big => (">", "Q")
  | .signed, .w8, .big => (">", "b")
  | .signed, .w16, .big => (">", "h")
  | .signed, .w32, .big => (">", "l")
  | .signed, .w64, .big => (">", "q")
  | .unsigned, .w8, .little => ("<", "B")
  | .unsigned, .w16, .little => ("<", "H")
  | .unsigned, .w32, .little => ("<", "L")
  | .unsigned, .w64, .little => ("<", "Q")
  | .signed, .w8, .little => ("<", "b")
  | .signed, .w16, .little => ("<", "h")
  | .signed, .w32, .little => ("<", "l")
  | .signed, .w64, .little => ("<", "q")
  | .unsigned, .w8, .native => ("=", "B")
  | .unsigned, .w16, .native => ("=", "H")
  | .unsigned, .w32, .native => ("=", "L")
  | .unsigned, .w64, .native => ("=", "Q")
  | .signed, .w8, .native => ("=", "b")
  | .signed, .w16, .native => ("=", "h")
  | .signed, .w32, .native => ("=", "l")
  | .signed, .w64, .native => ("=", "q")

/-! Theorems. -/

/-- A successfully compiled member list corresponds pointwise, in order, to
the declared field list: same length, and the i-th member carries the i-th
field's name verbatim together with that field's compiled layout. -/
def MemberMatches (f : Ty) (p : String × CType) : Prop :=
  Ty.name f = .ok p.1 ∧ Ty.to_ctypes f = .ok p.2

lemma toCtypesFields_ok (fields : List Ty)
    (h : ∀ f ∈ fields, (∃ nm, Ty.name f = .ok nm) ∧ (∃ c, Ty.to_ctypes f = .ok c)) :
    ∃ ms, toCtypesFields fields = .ok ms ∧ List.Forall₂ MemberMatches fields ms := by
  induction fields with
  | nil => exact ⟨[], rfl, List.Forall₂.nil⟩
  | cons f rest ih =>
    obtain ⟨⟨nm, hnm⟩, ⟨c, hc⟩⟩ := h f (List.mem_cons_self f rest)
    obtain ⟨ms, hms, hfa⟩ := ih (fun g hg => h g (List.mem_cons_of_mem f hg))
    refine ⟨(nm, c) :: ms, ?_, List.Forall₂.cons ⟨hnm, hc⟩ hfa⟩
    simp [toCtypesFields, hnm, hc, hms]

/-- Claim C1: for every `Struct` with fields `[f1, ..., fn]` whose fields
each compile successfully, `to_ctypes` returns an aggregate layout whose
members appear in exactly the declared order `[f1, ..., fn]`, each member
identifier equal verbatim to the corresponding field's name (no reordering
or packing). -/
theorem struct_to_ctypes_declared_order (name : String) (fields : List Ty)
    (h : ∀ f ∈ fields, (∃ nm, Ty.name f = .ok nm) ∧ (∃ c, Ty.to_ctypes f = .ok c)) :
    ∃ ms, Ty.to_ctypes (.struct name fields) = .ok (.Structure name ms) ∧
      List.Forall₂ MemberMatches fields ms := by
  obtain ⟨ms, hms, hfa⟩ := toCtypesFields_ok fields h
  exact ⟨ms, by simp [Ty.to_ctypes, hms], hfa⟩

/-- Witness for C1: a concrete two-field struct satisfies the hypothesis
and gets its aggregate layout in declared order. -/
theorem struct_to_ctypes_declared_order_witness :
    ∃ ms, Ty.to_ctypes (.struct "pt" [.field "x" "<" "B", .field "y" ">" "h"]) =
        .ok (.Structure "pt" ms) ∧
      List.Forall₂ MemberMatches [Ty.field "x" "<" "B", Ty.field "y" ">" "h"] ms :=
  struct_to_ctypes_declared_order "pt" [.field "x" "<" "B", .field "y" ">" "h"]
    (by
      intro f hf
      rcases List.mem_cons.mp hf with rfl | hf
      · exact ⟨⟨"x", rfl⟩, ⟨.scalar ⟨1, .unsigned⟩, rfl⟩⟩
      rcases List.mem_cons.mp hf with rfl | hf
      · exact ⟨⟨"y", rfl⟩, ⟨.scalar ⟨2, .signed⟩, rfl⟩⟩
      · exact absurd hf (List.not_mem_nil f))

/-- Claim C2, counterexample: a `Field` whose format code is absent from
the Format Table does not fail with the `NoCtypeMapping` kind (the
`NoNativeMapping` of the spec); the dictionary subscript in
`Field.to_ctypes` raises `KeyError` instead. -/
theorem field_missing_format_not_noCtypeMapping :
    format_ctypes "Z" = none ∧
      Ty.to_ctypes (.field "x" "<" "Z") = .error (.keyError "Z") ∧
      Ty.to_ctypes (.field "x" "<" "Z") ≠ .error .noCtypeMapping :=
  ⟨rfl, rfl, fun h => nomatch h⟩

/-- Claim C2 as amended: a `Field` whose format code is absent from the
Format Table fails with `KeyError` on that code (an untyped lookup
failure, not the `NoCtypeMapping` kind); a `Field` whose format code is
present yields the scalar entry resolved from the table. -/
theorem field_to_ctypes_lookup (name endianness format : String) :
    (format_ctypes format = none →
      Ty.to_ctypes (.field name endianness format) = .error (.keyError format)) ∧
    (∀ s, format_ctypes format = some s →
      Ty.to_ctypes (.field name endianness format) = .ok (.scalar s)) := by
  constructor
  · intro h
    simp [Ty.to_ctypes, h]
  · intro s h
    simp [Ty.to_ctypes, h]

/-- Witness for the amended C2: the absent code `Z` gives `KeyError` and
the present code `B` gives the one-byte unsigned scalar. -/
theorem field_to_ctypes_lookup_witness :
    Ty.to_ctypes (.field "x" "<" "Z") = .error (.keyError "Z") ∧
      Ty.to_ctypes (.field "x" "<" "B") = .ok (.scalar ⟨1, .unsigned⟩) :=
  ⟨(field_to_ctypes_lookup "x" "<" "Z").1 rfl,
   (field_to_ctypes_lookup "x" "<" "B").2 ⟨1, .unsigned⟩ rfl⟩

/-- Claim C3: the code evaluated at the failing input. `FixedString(5)`
does not return a `Sequence`; the call `Sequence(Char, length)` in its
body supplies two positional arguments to the three-parameter
`Sequence.__init__(self, name, ty, length)`, so it raises `TypeError`. -/
theorem fixedString_raises_typeerror :
    FixedString 5 =
      .error (.typeError
        "Sequence.__init__ missing 1 required positional argument: length") :=
  rfl

/-- Claim C4: the code evaluated at the failing input. `CString()` does not
return a `TerminatedString`; the call `TerminatedString(0x00-literal)` in
its body supplies one positional argument to the two-parameter
`TerminatedString.__init__(self, name, terminator)`, so it raises
`TypeError`. -/
theorem cString_raises_typeerror :
    CString =
      .error (.typeError
        "TerminatedString.__init__ missing 1 required positional argument: terminator") :=
  rfl

/-- Claim C5: the code evaluated at the failing input. `to_dtype` on a
`Field` does not succeed: the body reads the misspelled attribute
`endianess` (the constructor stores `endianness`), so every `Field` raises
`AttributeError`; non-`Field` variants do fail with `NoDtypeMapping` as
the claim says. -/
theorem field_to_dtype_attribute_error :
    Ty.to_dtype (.field "x" "<" "B") = .error (.attributeError "endianess") ∧
      Ty.to_dtype (.union "u" (UBInt8 "t") []) = .error .noDtypeMapping :=
  ⟨rfl, rfl⟩

/-- Claim C6: `Enum`, `Union`, `Vector`, `VariableString` and
`TerminatedString` nodes all fail `to_ctypes` with the `NoCtypeMapping`
kind (the `NoNativeMapping` of the spec), for every instance of each
variant. -/
theorem placeholder_variants_no_native_layout (n term : String)
    (idx tag ptr lenTy : Ty) (opts : List Ty) :
    Ty.to_ctypes (.enum n idx) = .error .noCtypeMapping ∧
      Ty.to_ctypes (.union n tag opts) = .error .noCtypeMapping ∧
      Ty.to_ctypes (.vector opts) = .error .noCtypeMapping ∧
      Ty.to_ctypes (.variableString n ptr lenTy) = .error .noCtypeMapping ∧
      Ty.to_ctypes (.terminatedString n term) = .error .noCtypeMapping :=
  ⟨rfl, rfl, rfl, rfl, rfl⟩

/-- Claim C7: pointer nodes are transparent aliases for naming —
`Pointer(t).name` equals `t.name` for every type node `t`. -/
theorem pointer_name_transparent (t : Ty) : Ty.name (.pointer t) = Ty.name t :=
  rfl

/-- Claim C8: for each of the 24 (signedness, width, endianness) triples
there is exactly one named integer constructor, each yielding a `Field`
with that triple's (endianness, format) pair, and the 24 pairs are
pairwise distinct (no two constructors collide). -/
theorem int_field_constructors_exhaustive_distinct :
    (∀ (s : Signedness) (w : Width) (e : Endian) (name : String),
      intFieldCtor s w e name = .field name (ctorPair s w e).1 (ctorPair s w e).2) ∧
    (∀ t₁ t₂ : Signedness × Width × Endian,
      ctorPair t₁.1 t₁.2.1 t₁.2.2 = ctorPair t₂.1 t₂.2.1 t₂.2.2 → t₁ = t₂) := by
  constructor
  · intro s w e name
    cases s <;> cases w <;> cases e <;> rfl
  · decide

/-- Witness for C8: at the concrete triple (unsigned, 8, big) the
designated constructor is `UBInt8` with pair `(">", "B")`, and pair
equality at concrete triples forces triple equality. -/
theorem int_field_constructors_witness :
    intFieldCtor .unsigned .w8 .big "x" = Ty.field "x" ">" "B" ∧
      ((Signedness.unsigned, Width.w8, Endian.big) :
          Signedness × Width × Endian) = (.unsigned, .w8, .big) :=
  ⟨int_field_constructors_exhaustive_distinct.1 .unsigned .w8 .big "x",
   int_field_constructors_exhaustive_distinct.2
     (.unsigned, .w8, .big) (.unsigned, .w8, .big) rfl⟩

/-- Claim C9: for every `name`, element constructor `ty` and dimension
count `nd`, `Array_C` returns a `Struct` with exactly two fields — first a
`Pointer` to `ty "data"`, then a `Sequence` named `shape` of length `nd`
with unsigned 8-bit native-endian cells — and `Array_S` returns the same
two fields plus a third `Sequence` named `stride` of length `nd` with the
same cell type. -/
theorem array_builders_field_shape (name : String) (ty : String → Ty) (nd : Nat) :
    Array_C name ty nd =
      .struct "Array_C" [.pointer (ty "data"), .sequence "shape" (UNInt8 "") nd] ∧
    Array_S name ty nd =
      .struct "Array_S" [.pointer (ty "data"), .sequence "shape" (UNInt8 "") nd,
        .sequence "stride" (UNInt8 "") nd] :=
  ⟨rfl, rfl⟩

/-- Claim C10: each array builder ignores the caller-supplied `name`: the
returned `Struct` is identical for any two names, and its name is always
the fixed literal of the builder. -/
theorem array_builders_ignore_name (name other : String) (ty : String → Ty) (nd : Nat) :
    Array_C name ty nd = Array_C other ty nd ∧
      Array_F name ty nd = Array_F other ty nd ∧
      Array_S name ty nd = Array_S other ty nd ∧
      Ty.name (Array_C name ty nd) = .ok "Array_C" ∧
      Ty.name (Array_F name ty nd) = .ok "Array_F" ∧
      Ty.name (Array_S name ty nd) = .ok "Array_S" :=
  ⟨rfl, rfl, rfl, rfl, rfl, rfl⟩

end LLTypes
